import Mathlib

/-!
Verification development for the NeuroScan-AI inference server (`app.py`,
`convert_model.py`).  The Python source is shallowly embedded: pure data
shaping becomes Lean functions over `ℚ`, the stateful model cache becomes
explicit state passing, Python exceptions become `Except String`, and the
external libraries (PIL, TensorFlow, requests, numpy's random sampler) are
modelled as explicit parameters or environment fields carrying only the
interface guarantees the code relies on.
-/

/-- `CLASS_LABELS = ['Glioma', 'Meningioma', 'No Tumor', 'Pituitary']`
from `app.py`. -/
def CLASS_LABELS : Fin 4 → String
  | 0 => "Glioma"
  | 1 => "Meningioma"
  | 2 => "No Tumor"
  | 3 => "Pituitary"

/-- Sum of a four-entry probability vector (`probs.sum()` / the implicit
sum over the four class outputs). -/
def sum4 (p : Fin 4 → ℚ) : ℚ := p 0 + p 1 + p 2 + p 3

/-- `np.argmax` on a length-4 vector: the first index attaining the
maximum value. -/
def argmax4 (p : Fin 4 → ℚ) : Fin 4 :=
  if p 1 ≤ p 0 ∧ p 2 ≤ p 0 ∧ p 3 ≤ p 0 then 0
  else if p 0 ≤ p 1 ∧ p 2 ≤ p 1 ∧ p 3 ≤ p 1 then 1
  else if p 0 ≤ p 2 ∧ p 1 ≤ p 2 ∧ p 3 ≤ p 2 then 2
  else 3

theorem argmax4_isMax (p : Fin 4 → ℚ) : ∀ j, p j ≤ p (argmax4 p) := by
  unfold argmax4
  split_ifs with h0 h1 h2
  · intro j
    fin_cases j
    · exact le_rfl
    · exact h0.1
    · exact h0.2.1
    · exact h0.2.2
  · intro j
    fin_cases j
    · exact h1.1
    · exact le_rfl
    · exact h1.2.1
    · exact h1.2.2
  · intro j
    fin_cases j
    · exact h2.1
    · exact h2.2.1
    · exact le_rfl
    · exact h2.2.2
  · obtain ⟨i, -, hi⟩ :=
      Finset.exists_max_image (Finset.univ : Finset (Fin 4)) p
        ⟨0, Finset.mem_univ 0⟩
    have hi4 : ∀ j, p j ≤ p i := fun j => hi j (Finset.mem_univ j)
    fin_cases i
    · exact absurd ⟨hi4 1, hi4 2, hi4 3⟩ h0
    · exact absurd ⟨hi4 0, hi4 2, hi4 3⟩ h1
    · exact absurd ⟨hi4 0, hi4 1, hi4 3⟩ h2
    · exact hi4

/-- Round-half-to-even to an integer, the tie behaviour of Python's
built-in `round`. -/
def roundHalfEven (q : ℚ) : ℤ :=
  let f := ⌊q⌋
  let r := q - f
  if r < 1/2 then f
  else if 1/2 < r then f + 1
  else if f % 2 = 0 then f else f + 1

/-- Python's `round(x, 2)`: round to two decimal places. -/
def round2 (q : ℚ) : ℚ := roundHalfEven (q * 100) / 100

/-- The JSON prediction payload shared by the demo and real branches of
`/predict`: `prediction`, `confidence`, and a label-keyed
`probabilities` map (represented through the label index). -/
structure ClassificationResult where
  prediction : String
  confidence : ℚ
  probabilities : Fin 4 → ℚ

/-- Response shaping of `demo_predict` in `app.py`, given the simulated
probability vector: arg-max label, unrounded confidence percentage, and
unrounded percentage map. -/
def demoResponse (probs : Fin 4 → ℚ) : ClassificationResult :=
  let i := argmax4 probs
  { prediction := CLASS_LABELS i
    confidence := probs i * 100
    probabilities := fun j => probs j * 100 }

/-- Response shaping of the real-mode branch of `predict` in `app.py`,
given the model's output row `predictions[0]`: arg-max label, confidence
percentage rounded to 2 decimals by `round(confidence, 2)`, and the
unrounded percentage map. -/
def realResponse (preds : Fin 4 → ℚ) : ClassificationResult :=
  let i := argmax4 preds
  { prediction := CLASS_LABELS i
    confidence := round2 (preds i * 100)
    probabilities := fun j => preds j * 100 }

/-- The threshold in `if random.random() > 0.3` of `demo_predict`. -/
def boostThreshold : ℚ := 3/10

/-- Concentration vector `np.ones(4) * 2` passed to
`np.random.dirichlet` by `demo_predict`. -/
def dirichletAlpha : Fin 4 → ℚ := fun _ => 1 * 2

/-- The probability vector computed by `demo_predict`, as a function of
the random draws it consumes: `d` is the Dirichlet sample, `r` the
uniform draw of `random.random()`, and `k` the class index drawn by
`random.randint(0, 3)`.  When `r > 0.3` the chosen class weight is
boosted by `0.5` and the vector renormalised by its sum; otherwise the
Dirichlet sample is returned unmodified. -/
def demoProbs (d : Fin 4 → ℚ) (r : ℚ) (k : Fin 4) : Fin 4 → ℚ :=
  if boostThreshold < r then
    let boosted := fun j => d j + if j = k then 1/2 else 0
    fun j => boosted j / sum4 boosted
  else d

/-- `demo_predict` in `app.py`: simulated probabilities followed by the
shared response shaping. -/
def demo_predict (d : Fin 4 → ℚ) (r : ℚ) (k : Fin 4) : ClassificationResult :=
  demoResponse (demoProbs d r k)

theorem sum4_boosted (d : Fin 4 → ℚ) (k : Fin 4) :
    sum4 (fun j => d j + if j = k then 1/2 else 0) = sum4 d + 1/2 := by
  fin_cases k <;> simp [sum4] <;> ring

theorem sum4_demoProbs (d : Fin 4 → ℚ) (r : ℚ) (k : Fin 4)
    (hd : sum4 d = 1) : sum4 (demoProbs d r k) = 1 := by
  unfold demoProbs
  split_ifs with hr
  · have hb := sum4_boosted d k
    have hsum : sum4 (fun j => (d j + if j = k then 1/2 else 0) /
        sum4 (fun j => d j + if j = k then 1/2 else 0)) =
        sum4 (fun j => d j + if j = k then 1/2 else 0) /
        sum4 (fun j => d j + if j = k then 1/2 else 0) := by
      simp only [sum4]
      ring
    rw [hsum, hb, hd]
    norm_num
  · exact hd

/-- `MODEL_PATH` in `app.py` (basename of the joined path). -/
def MODEL_PATH : String := "model.h5"

/-- `CONVERTED_MODEL_PATH` in `app.py` (basename of the joined path). -/
def CONVERTED_MODEL_PATH : String := "model_converted.keras"

/-- Artifact path selection in `load_model`:
`CONVERTED_MODEL_PATH if os.path.exists(CONVERTED_MODEL_PATH) else MODEL_PATH`. -/
def select_model_path (convertedExists : Bool) : String :=
  if convertedExists then CONVERTED_MODEL_PATH else MODEL_PATH

/-- The parts of the outside world `load_model` consults: whether the
converted artifact file exists, whether `import tf_keras` succeeds, and
the outcomes of the two runtime load calls on a given path.  `M` is the
opaque type of loaded model handles. -/
structure LoadEnv (M : Type) where
  convertedExists : Bool
  tfKerasImportOk : Bool
  tfKerasLoad : String → Except String M
  tfLoad : String → Except String M

/-- Instrumentation counting the externally visible work of one
`load_model` call: `os.path.exists` checks, `tf_keras.models.load_model`
calls and `tf.keras.models.load_model` calls. -/
structure LoadTrace where
  fsChecks : ℕ
  shimLoadCalls : ℕ
  stdLoadCalls : ℕ
deriving DecidableEq

/-- One `load_model` call's outcome: the returned value or raised
exception, the global `model` variable afterwards, and the work trace. -/
structure LoadOutcome (M : Type) where
  result : Except String (Option M)
  newModel : Option M
  trace : LoadTrace

/-- `load_model` in `app.py`, with the global `model` made an explicit
argument/field.  In demo mode it returns `None` immediately.  Otherwise,
if the cache is empty it selects the artifact path, tries the `tf_keras`
shim when its import succeeds, falls back to `tf.keras` when the import
raised `ImportError`, and re-raises the load error when the attempted
loader fails. -/
def load_model {M : Type} (demo : Bool) (env : LoadEnv M) (st : Option M) :
    LoadOutcome M :=
  if demo then ⟨Except.ok none, st, ⟨0, 0, 0⟩⟩
  else
    match st with
    | some m => ⟨Except.ok (some m), some m, ⟨0, 0, 0⟩⟩
    | none =>
      let path := select_model_path env.convertedExists
      if env.tfKerasImportOk then
        match env.tfKerasLoad path with
        | Except.ok m => ⟨Except.ok (some m), some m, ⟨1, 1, 0⟩⟩
        | Except.error e => ⟨Except.error e, none, ⟨1, 1, 0⟩⟩
      else
        match env.tfLoad path with
        | Except.ok m => ⟨Except.ok (some m), some m, ⟨1, 0, 1⟩⟩
        | Except.error e => ⟨Except.error e, none, ⟨1, 0, 1⟩⟩

/-- The global `model` after `n` successive real-mode `load_model`
calls, starting from the empty cache. -/
def modelStateAfter {M : Type} (env : LoadEnv M) : ℕ → Option M
  | 0 => none
  | n + 1 => (load_model false env (modelStateAfter env n)).newModel

theorem load_model_ok_newModel {M : Type} (env : LoadEnv M) (m : M)
    (h : (load_model false env none).result = Except.ok (some m)) :
    (load_model false env none).newModel = some m := by
  unfold load_model at h ⊢
  by_cases himp : env.tfKerasImportOk
  · simp only [himp, if_true, Bool.false_eq_true, if_false] at h ⊢
    cases hload : env.tfKerasLoad (select_model_path env.convertedExists) with
    | ok v => simp [hload] at h ⊢; exact h
    | error e => simp [hload] at h
  · simp only [himp, if_false, Bool.false_eq_true] at h ⊢
    cases hload : env.tfLoad (select_model_path env.convertedExists) with
    | ok v => simp [hload] at h ⊢; exact h
    | error e => simp [hload] at h

theorem load_model_cached {M : Type} (env : LoadEnv M) (m : M) :
    load_model false env (some m) =
      ⟨Except.ok (some m), some m, ⟨0, 0, 0⟩⟩ := rfl

/-- A decoded PIL image: colour mode, pixel dimensions, and the pixel
grid.  Channel samples are 8-bit, which the `Fin 256` codomain records
as the storage invariant PIL guarantees. -/
structure PILImage where
  mode : String
  width : ℕ
  height : ℕ
  px : ℕ → ℕ → Fin 3 → Fin 256

/-- The numpy array produced by `preprocess_image`: a shape list plus a
value function indexed `(batch, row, column, channel)`. -/
structure Tensor4 where
  shape : List ℕ
  val : ℕ → ℕ → ℕ → ℕ → ℚ

/-- The mode-conversion step of `preprocess_image`:
`image.convert('RGB') if image.mode != 'RGB'`. -/
def to_rgb (convert : PILImage → String → PILImage) (img : PILImage) :
    PILImage :=
  if img.mode ≠ "RGB" then convert img "RGB" else img

/-- `preprocess_image` in `app.py`, parametric in PIL's `convert` and
`resize` primitives (external library calls): convert to RGB when
needed, resize to 299 by 299, divide by 255.0, and prepend a batch
dimension via `np.expand_dims(img_array, axis=0)`. -/
def preprocess_image (convert : PILImage → String → PILImage)
    (resize : PILImage → ℕ → ℕ → PILImage) (img : PILImage) : Tensor4 :=
  let rgb := to_rgb convert img
  let resized := resize rgb 299 299
  { shape := [1, resized.height, resized.width, 3]
    val := fun _ i j c =>
      if h : c < 3 then ((resized.px i j ⟨c, h⟩ : ℕ) : ℚ) / 255 else 0 }

/-- Python's `str.split(',')` on a character list: split at every comma,
keeping empty segments. -/
def split_on_comma : List Char → List (List Char)
  | [] => [[]]
  | c :: rest =>
    let t := split_on_comma rest
    if c = ',' then [] :: t else (c :: t.headD []) :: t.tail

theorem split_on_comma_no_comma (l : List Char) (h : ',' ∉ l) :
    split_on_comma l = [l] := by
  induction l with
  | nil => rfl
  | cons c rest ih =>
    have hc : c ≠ ',' := fun hc => h (hc ▸ List.mem_cons_self c rest)
    have hr : ',' ∉ rest := fun hr => h (List.mem_cons_of_mem c hr)
    simp only [split_on_comma, ih hr, if_neg hc, List.headD_cons,
      List.tail_cons]

theorem split_on_comma_append (p e : List Char) (hp : ',' ∉ p) :
    split_on_comma (p ++ ',' :: e) = p :: split_on_comma e := by
  induction p with
  | nil => simp [split_on_comma]
  | cons c rest ih =>
    have hc : c ≠ ',' := fun hc => hp (hc ▸ List.mem_cons_self c rest)
    have hr : ',' ∉ rest := fun hr => hp (List.mem_cons_of_mem c hr)
    simp only [List.cons_append, split_on_comma, List.append_eq, ih hr,
      if_neg hc, List.headD_cons, List.tail_cons]

/-- The data-URL stripping in `predict`: when the base64 string contains
a comma, keep `split(',')[1]`, else keep the string itself. -/
def extract_b64_payload (s : List Char) : List Char :=
  if ',' ∈ s then (split_on_comma s).getD 1 [] else s

/-- The 64-character standard base64 alphabet used by
`base64.b64encode`. -/
def b64Alphabet : List Char :=
  "ABCDEFGHIJKLMNOPQRSTUVWXYZabcdefghijklmnopqrstuvwxyz0123456789+/".toList

/-- Alphabet lookup for a 6-bit group. -/
def b64Char (n : ℕ) : Char :=
  if h : n < b64Alphabet.length then b64Alphabet.get ⟨n, h⟩ else 'A'

theorem b64Char_ne_comma (n : ℕ) : b64Char n ≠ ',' := by
  unfold b64Char
  split_ifs with h
  · have hmem : b64Alphabet.get ⟨n, h⟩ ∈ b64Alphabet := List.get_mem _ _ _
    have hall : ∀ c ∈ b64Alphabet, c ≠ ',' := by decide
    exact hall _ hmem
  · decide

/-- `base64.b64encode` on a byte list (each byte taken mod 256),
producing the padded standard-alphabet character string. -/
def b64encode : List ℕ → List Char
  | [] => []
  | [a] =>
    [b64Char (a % 256 / 4), b64Char (a % 256 % 4 * 16), '=', '=']
  | [a, b] =>
    [b64Char (a % 256 / 4), b64Char (a % 256 % 4 * 16 + b % 256 / 16),
     b64Char (b % 256 % 16 * 4), '=']
  | a :: b :: c :: rest =>
    b64Char (a % 256 / 4) :: b64Char (a % 256 % 4 * 16 + b % 256 / 16) ::
    b64Char (b % 256 % 16 * 4 + c % 256 / 64) :: b64Char (c % 256 % 64) ::
    b64encode rest

theorem b64encode_no_comma (bs : List ℕ) : ',' ∉ b64encode bs := by
  induction bs using b64encode.induct with
  | case1 => simp [b64encode]
  | case2 a =>
    simp only [b64encode, List.mem_cons, List.not_mem_nil, or_false]
    push_neg
    refine ⟨?_, ?_, ?_, ?_⟩ <;>
      first
        | exact fun h => b64Char_ne_comma _ h.symm
        | decide
  | case3 a b =>
    simp only [b64encode, List.mem_cons, List.not_mem_nil, or_false]
    push_neg
    refine ⟨?_, ?_, ?_, ?_⟩ <;>
      first
        | exact fun h => b64Char_ne_comma _ h.symm
        | decide
  | case4 a b c rest ih =>
    simp only [b64encode, List.mem_cons]
    push_neg
    refine ⟨?_, ?_, ?_, ?_, ih⟩ <;>
      exact fun h => b64Char_ne_comma _ h.symm

/-- The data-URL marker `data:<mediatype>;base64,` that may precede the
base64 payload in the JSON `image` field. -/
def dataUrlMarker (t : List Char) : List Char :=
  "data:".toList ++ t ++ ";base64,".toList

theorem extract_b64_payload_no_comma (s : List Char) (h : ',' ∉ s) :
    extract_b64_payload s = s := by
  unfold extract_b64_payload
  rw [if_neg h]

theorem extract_b64_payload_marker (t e : List Char) (ht : ',' ∉ t)
    (he : ',' ∉ e) :
    extract_b64_payload (dataUrlMarker t ++ e) = e := by
  have hsplit : dataUrlMarker t ++ e =
      ("data:".toList ++ t ++ ";base64".toList) ++ ',' :: e := by
    unfold dataUrlMarker
    simp
  have hpre : ',' ∉ "data:".toList ++ t ++ ";base64".toList := by
    intro hmem
    rcases List.mem_append.mp hmem with hmem' | hmem'
    · rcases List.mem_append.mp hmem' with hd | hd
      · revert hd; decide
      · exact ht hd
    · revert hmem'; decide
  unfold extract_b64_payload
  rw [hsplit, split_on_comma_append _ _ hpre, split_on_comma_no_comma _ he]
  rw [if_pos (by simp)]
  rfl

/-- A multipart upload in `request.files['image']`: its `filename` and
the bytes `file.read()` returns. -/
structure FileUp where
  filename : String
  content : List ℕ

/-- The JSON body as far as `predict` reads it: the optional `image`
field (a base64 character string). -/
structure PredictJson where
  image : Option (List Char)

/-- One `/predict` request: whether `request.files` has an `image`
entry, and what `request.get_json()` does (it can raise, return `None`,
or return a parsed body). -/
structure PredictReq where
  fileImage : Option FileUp
  getJson : Except String (Option PredictJson)

/-- Everything outside the `predict` handler that its execution
consults: the mode flag, the loader environment and current model cache,
and the outcomes of the external calls (`base64.b64decode`,
`Image.open`, PIL's two primitives, `model.predict`) plus the random
draws the demo predictor consumes. -/
structure PredictEnv (M : Type) where
  demoMode : Bool
  loadEnv : LoadEnv M
  modelState : Option M
  b64dec : List Char → Except String (List ℕ)
  openImage : List ℕ → Except String PILImage
  convert : PILImage → String → PILImage
  resize : PILImage → ℕ → ℕ → PILImage
  infer : M → Tensor4 → Except String (Fin 4 → ℚ)
  demoDirichlet : Fin 4 → ℚ
  demoRand : ℚ
  demoIdx : Fin 4

/-- The JSON body of a `/predict` response: either an error object or a
success object (with its `demo_mode` tag and classification payload). -/
inductive PredictBody where
  | err (msg : String)
  | pred (demoFlag : Bool) (r : ClassificationResult)

/-- The part of `predict` that runs once image bytes are in hand: the
demo branch (sleep then `demo_predict`), or the real branch
(`load_model`, `preprocess_image`, `model.predict`, response shaping),
with every raised exception caught into a 500 error response. -/
def run_prediction {M : Type} (env : PredictEnv M) (imageBytes : List ℕ) :
    ℕ × PredictBody :=
  if env.demoMode then
    (200, PredictBody.pred true
      (demo_predict env.demoDirichlet env.demoRand env.demoIdx))
  else
    match (load_model false env.loadEnv env.modelState).result with
    | Except.error e => (500, PredictBody.err e)
    | Except.ok none =>
      (500, PredictBody.err "NoneType object has no attribute predict")
    | Except.ok (some m) =>
      match env.openImage imageBytes with
      | Except.error e => (500, PredictBody.err e)
      | Except.ok img =>
        match env.infer m (preprocess_image env.convert env.resize img) with
        | Except.error e => (500, PredictBody.err e)
        | Except.ok preds => (200, PredictBody.pred false (realResponse preds))

/-- The `/predict` handler of `app.py` as a status-and-body function:
input extraction (upload field first, then the JSON `image` field with
data-URL stripping and base64 decoding), the 400 early returns, and the
catch-all 500 conversion of raised exceptions. -/
def predict {M : Type} (env : PredictEnv M) (req : PredictReq) :
    ℕ × PredictBody :=
  match req.fileImage with
  | some f =>
    if f.filename = "" then (400, PredictBody.err "No image selected")
    else run_prediction env f.content
  | none =>
    match req.getJson with
    | Except.error e => (500, PredictBody.err e)
    | Except.ok none => (400, PredictBody.err "No image provided")
    | Except.ok (some d) =>
      match d.image with
      | none => (400, PredictBody.err "No image provided")
      | some s =>
        match env.b64dec (extract_b64_payload s) with
        | Except.error e => (500, PredictBody.err e)
        | Except.ok bytes => run_prediction env bytes

/-- An exception raised by `requests.post`: `requests.Timeout` or any
other exception with its message. -/
inductive ChatExc where
  | timeout
  | other (msg : String)

/-- The upstream JSON body as far as `chat` reads it: the nested error
message `error.message` when present, and the extraction
`result['choices'][0]['message']['content']` (which can raise a
`KeyError`/`IndexError`, modelled as the error case). -/
structure ChatUpJson where
  errorMessage : Option String
  content : Except String String

/-- The HTTP response object `requests.post` returns: status code, raw
`text`, and the outcome of `response.json()`. -/
structure HttpResp where
  status : ℕ
  text : String
  json : Except String ChatUpJson

/-- Environment of the `chat` handler: the configured API key and the
outcome of the (at most one) outbound `requests.post` call. -/
structure ChatEnv where
  apiKey : String
  postResult : Except ChatExc HttpResp

/-- The JSON body as far as `chat` reads it: the optional `message`
field. -/
structure ChatJson where
  message : Option String

/-- One `/chat` request: what `request.get_json()` does. -/
structure ChatReq where
  getJson : Except String (Option ChatJson)

/-- The JSON body of a `/chat` response: the 400 error object, a 200
degraded object carrying `error` and an in-band `response` string, or
the 200 success object. -/
inductive ChatBody where
  | err (msg : String)
  | degraded (error response : String)
  | success (response : String)

/-- The `response` string of a `/chat` body, when one is present. -/
def chatBodyResponse : ChatBody → Option String
  | ChatBody.err _ => none
  | ChatBody.degraded _ r => some r
  | ChatBody.success r => some r

/-- Outcome of one `chat` call: HTTP status, body, and whether the
outbound `requests.post` call was made. -/
structure ChatOutcome where
  status : ℕ
  body : ChatBody
  calledUpstream : Bool

/-- The canned `error` string of the unconfigured-chatbot branch. -/
def notConfiguredError : String :=
  "Chatbot not configured. Please set OPENROUTER_API_KEY environment variable."

/-- The canned `response` string of the unconfigured-chatbot branch. -/
def notConfiguredResponse : String :=
  "I apologize, but the chatbot is not configured yet. Please add your OpenRouter API key to enable this feature."

/-- The canned `response` string of the generic exception handler. -/
def genericFailureResponse : String := "An error occurred. Please try again."

/-- The message of the `AttributeError` raised by `data.get` when
`request.get_json()` returned `None`. -/
def noneGetAttributeMsg : String :=
  "NoneType object has no attribute get"

/-- Python's `str.strip()` with no argument: remove leading and
trailing whitespace. -/
def py_strip (s : String) : String :=
  String.mk
    (((s.data.dropWhile Char.isWhitespace).reverse.dropWhile
      Char.isWhitespace).reverse)

/-- The `/chat` handler of `app.py`: strip the message, 400 on empty,
canned 200 response when no API key is configured, otherwise one
bounded outbound call whose timeout, exception, non-200 status and
body-extraction failures are all converted to in-band 200 responses. -/
def chat (env : ChatEnv) (req : ChatReq) : ChatOutcome :=
  match req.getJson with
  | Except.error e => ⟨200, ChatBody.degraded e genericFailureResponse, false⟩
  | Except.ok none =>
    ⟨200, ChatBody.degraded noneGetAttributeMsg genericFailureResponse, false⟩
  | Except.ok (some d) =>
    let userMessage := py_strip (d.message.getD "")
    if userMessage = "" then ⟨400, ChatBody.err "No message provided", false⟩
    else if env.apiKey = "" then
      ⟨200, ChatBody.degraded notConfiguredError notConfiguredResponse, false⟩
    else
      match env.postResult with
      | Except.error ChatExc.timeout =>
        ⟨200, ChatBody.degraded "Request timeout"
          "The request took too long. Please try again.", true⟩
      | Except.error (ChatExc.other e) =>
        ⟨200, ChatBody.degraded e genericFailureResponse, true⟩
      | Except.ok resp =>
        if resp.status ≠ 200 then
          if resp.text = "" then
            ⟨200, ChatBody.degraded ("API error: " ++ toString resp.status)
              "API Error: Unknown error. Please try again later.", true⟩
          else
            match resp.json with
            | Except.error e =>
              ⟨200, ChatBody.degraded e genericFailureResponse, true⟩
            | Except.ok j =>
              ⟨200, ChatBody.degraded ("API error: " ++ toString resp.status)
                ("API Error: " ++ j.errorMessage.getD "Unknown error" ++
                  ". Please try again later."), true⟩
        else
          match resp.json with
          | Except.error e =>
            ⟨200, ChatBody.degraded e genericFailureResponse, true⟩
          | Except.ok j =>
            match j.content with
            | Except.error e =>
              ⟨200, ChatBody.degraded e genericFailureResponse, true⟩
            | Except.ok c => ⟨200, ChatBody.success c, true⟩

/-- The `/health` response body. -/
structure HealthResp where
  status : String
  demo_mode : Bool
  model_loaded : Bool
  chatbot_configured : Bool

/-- The `/health` handler of `app.py`, as a function of the mode flag,
the global `model` cache and the configured API key. -/
def health {M : Type} (demo : Bool) (st : Option M) (apiKey : String) :
    HealthResp :=
  ⟨"healthy", demo, st.isSome, !apiKey.isEmpty⟩

/-- Substring matching used to state that a response text contains a
given phrase: `leadsWith p l` holds when `p` is an initial segment of
`l`. -/
def leadsWith : List Char → List Char → Bool
  | [], _ => true
  | _ :: _, [] => false
  | a :: as, b :: bs => a = b && leadsWith as bs

/-- `hasSub p l` holds when `p` occurs contiguously inside `l`. -/
def hasSub (p : List Char) : List Char → Bool
  | [] => leadsWith p []
  | c :: rest => leadsWith p (c :: rest) || hasSub p rest

/-- The value range of `random.randint(0, 3)` in `demo_predict`: all
four class indices. -/
def randintRange : Finset (Fin 4) := Finset.univ

/-- Probability of drawing `k` from a finite set under the uniform
distribution, as a counting ratio. -/
def uniformProb (s : Finset (Fin 4)) (k : Fin 4) : ℚ :=
  (s.filter (fun x => x = k)).card / s.card

theorem sum4_scale (p : Fin 4 → ℚ) :
    sum4 (fun j => p j * 100) = sum4 p * 100 := by
  simp only [sum4]
  ring

/-- Claim C1: every prediction response, demo or real, has its four
probability percentages summing to exactly 100 (hence within 0.01),
its `prediction` field equal to the label of a maximal-probability
class (the arg-max label), and its `confidence` field equal to the
predicted probability scaled to a percentage — rounded to 2 decimal
places in real mode while the probabilities map stays unrounded.  The
hypotheses record that the underlying four-class outputs (the demo
Dirichlet draw and the model's softmax row) each sum to 1. -/
theorem c1_prediction_response (d preds : Fin 4 → ℚ) (r : ℚ) (k : Fin 4)
    (hd : sum4 d = 1) (hp : sum4 preds = 1) :
    (sum4 (demo_predict d r k).probabilities = 100 ∧
      (demo_predict d r k).prediction =
        CLASS_LABELS (argmax4 (demoProbs d r k)) ∧
      (∀ j, demoProbs d r k j ≤ demoProbs d r k (argmax4 (demoProbs d r k))) ∧
      (demo_predict d r k).confidence =
        demoProbs d r k (argmax4 (demoProbs d r k)) * 100 ∧
      (∀ j, (demo_predict d r k).probabilities j = demoProbs d r k j * 100)) ∧
    (sum4 (realResponse preds).probabilities = 100 ∧
      (realResponse preds).prediction = CLASS_LABELS (argmax4 preds) ∧
      (∀ j, preds j ≤ preds (argmax4 preds)) ∧
      (realResponse preds).confidence =
        round2 (preds (argmax4 preds) * 100) ∧
      (∀ j, (realResponse preds).probabilities j = preds j * 100)) := by
  constructor
  · refine ⟨?_, ?_, ?_, ?_, ?_⟩
    · show sum4 (fun j => demoProbs d r k j * 100) = 100
      rw [sum4_scale, sum4_demoProbs d r k hd]
      norm_num
    · rfl
    · exact argmax4_isMax (demoProbs d r k)
    · rfl
    · intro j
      rfl
  · refine ⟨?_, ?_, ?_, ?_, ?_⟩
    · show sum4 (fun j => preds j * 100) = 100
      rw [sum4_scale, hp]
      norm_num
    · rfl
    · exact argmax4_isMax preds
    · rfl
    · intro j
      rfl

/-- Concrete Dirichlet draw used by witnesses. -/
def demoDrawW : Fin 4 → ℚ
  | 0 => 1
  | _ => 0

/-- Concrete softmax row used by witnesses. -/
def softmaxRowW : Fin 4 → ℚ
  | 2 => 7/10
  | _ => 1/10

/-- Witness for C1 at a concrete Dirichlet draw, random draws and
softmax row. -/
theorem c1_prediction_response_witness :
    (sum4 (demo_predict demoDrawW (1/2) 1).probabilities = 100 ∧
      (demo_predict demoDrawW (1/2) 1).prediction =
        CLASS_LABELS (argmax4 (demoProbs demoDrawW (1/2) 1)) ∧
      (∀ j, demoProbs demoDrawW (1/2) 1 j ≤
        demoProbs demoDrawW (1/2) 1 (argmax4 (demoProbs demoDrawW (1/2) 1))) ∧
      (demo_predict demoDrawW (1/2) 1).confidence =
        demoProbs demoDrawW (1/2) 1 (argmax4 (demoProbs demoDrawW (1/2) 1)) *
          100 ∧
      (∀ j, (demo_predict demoDrawW (1/2) 1).probabilities j =
        demoProbs demoDrawW (1/2) 1 j * 100)) ∧
    (sum4 (realResponse softmaxRowW).probabilities = 100 ∧
      (realResponse softmaxRowW).prediction =
        CLASS_LABELS (argmax4 softmaxRowW) ∧
      (∀ j, softmaxRowW j ≤ softmaxRowW (argmax4 softmaxRowW)) ∧
      (realResponse softmaxRowW).confidence =
        round2 (softmaxRowW (argmax4 softmaxRowW) * 100) ∧
      (∀ j, (realResponse softmaxRowW).probabilities j =
        softmaxRowW j * 100)) :=
  c1_prediction_response demoDrawW softmaxRowW (1/2) 1
    (by norm_num [demoDrawW, sum4]) (by norm_num [softmaxRowW, sum4])

/-- Claim C2: for every decoded image, `preprocess_image` returns a
tensor of shape exactly `[1, 299, 299, 3]` with every value in
`[0, 1]`, converting non-RGB images to RGB first.  The hypotheses state
the library contracts the code relies on: `convert` to `'RGB'` yields
mode `'RGB'`, and `resize` yields exactly the requested pixel
dimensions (a stretch, with no aspect-ratio constraint). -/
theorem c2_preprocess_shape_range (convert : PILImage → String → PILImage)
    (resize : PILImage → ℕ → ℕ → PILImage)
    (hconv : ∀ im, (convert im "RGB").mode = "RGB")
    (hres : ∀ im w h, (resize im w h).width = w ∧ (resize im w h).height = h)
    (img : PILImage) :
    (preprocess_image convert resize img).shape = [1, 299, 299, 3] ∧
    (∀ b i j c, 0 ≤ (preprocess_image convert resize img).val b i j c ∧
      (preprocess_image convert resize img).val b i j c ≤ 1) ∧
    (to_rgb convert img).mode = "RGB" := by
  refine ⟨?_, ?_, ?_⟩
  · show [1, (resize (to_rgb convert img) 299 299).height,
      (resize (to_rgb convert img) 299 299).width, 3] = [1, 299, 299, 3]
    rw [(hres (to_rgb convert img) 299 299).1,
      (hres (to_rgb convert img) 299 299).2]
  · intro b i j c
    show 0 ≤ (if h : c < 3 then
        (((resize (to_rgb convert img) 299 299).px i j ⟨c, h⟩ : ℕ) : ℚ) / 255
      else 0) ∧ (if h : c < 3 then
        (((resize (to_rgb convert img) 299 299).px i j ⟨c, h⟩ : ℕ) : ℚ) / 255
      else 0) ≤ 1
    split_ifs with hc
    · constructor
      · positivity
      · rw [div_le_one (by norm_num)]
        have hlt : ((resize (to_rgb convert img) 299 299).px i j ⟨c, hc⟩ :
            ℕ) < 256 := Fin.isLt _
        have : (((resize (to_rgb convert img) 299 299).px i j ⟨c, hc⟩ :
            ℕ) : ℚ) ≤ 255 := by
          exact_mod_cast Nat.le_of_lt_succ hlt
        exact this
    · exact ⟨le_rfl, by norm_num⟩
  · unfold to_rgb
    split_ifs with hm
    · exact hconv img
    · exact not_not.mp hm

/-- Concrete PIL `convert` primitive used by witnesses. -/
def convertW : PILImage → String → PILImage :=
  fun im m => { im with mode := m }

/-- Concrete PIL `resize` primitive used by witnesses. -/
def resizeW : PILImage → ℕ → ℕ → PILImage :=
  fun im w h => { im with width := w, height := h }

/-- Concrete grayscale input image used by witnesses. -/
def imgW : PILImage := ⟨"L", 5, 7, fun _ _ _ => ⟨17, by norm_num⟩⟩

/-- Witness for C2 at a concrete image and concrete library
primitives. -/
theorem c2_preprocess_shape_range_witness :
    (preprocess_image convertW resizeW imgW).shape = [1, 299, 299, 3] ∧
    (∀ b i j c, 0 ≤ (preprocess_image convertW resizeW imgW).val b i j c ∧
      (preprocess_image convertW resizeW imgW).val b i j c ≤ 1) ∧
    (to_rgb convertW imgW).mode = "RGB" :=
  c2_preprocess_shape_range convertW resizeW (fun _ => rfl)
    (fun _ _ _ => ⟨rfl, rfl⟩) imgW

/-- Claim C3: the loader follows the linear fallback chain.  Path
selection prefers the converted artifact exactly when it exists; when
the shim import succeeds the shim loads and the standard runtime is
never called; when the shim import fails that is not fatal and the
standard runtime loads; and when both the import and the standard load
fail the call fails carrying the underlying load error. -/
theorem c3_loader_fallback_chain {M : Type} (env : LoadEnv M) :
    (select_model_path true = CONVERTED_MODEL_PATH ∧
      select_model_path false = MODEL_PATH) ∧
    (∀ m, env.tfKerasImportOk = true →
      env.tfKerasLoad (select_model_path env.convertedExists) = Except.ok m →
      load_model false env none =
        ⟨Except.ok (some m), some m, ⟨1, 1, 0⟩⟩) ∧
    (∀ m, env.tfKerasImportOk = false →
      env.tfLoad (select_model_path env.convertedExists) = Except.ok m →
      load_model false env none =
        ⟨Except.ok (some m), some m, ⟨1, 0, 1⟩⟩) ∧
    (∀ e, env.tfKerasImportOk = false →
      env.tfLoad (select_model_path env.convertedExists) = Except.error e →
      (load_model false env none).result = Except.error e) ∧
    (env.tfKerasImportOk = true →
      (load_model false env none).trace.stdLoadCalls = 0) := by
  refine ⟨⟨rfl, rfl⟩, ?_, ?_, ?_, ?_⟩
  · intro m himp hload
    unfold load_model
    simp only [himp, if_true, Bool.false_eq_true, if_false, hload]
  · intro m himp hload
    unfold load_model
    simp only [himp, Bool.false_eq_true, if_false, hload]
  · intro e himp hload
    unfold load_model
    simp only [himp, Bool.false_eq_true, if_false, hload]
  · intro himp
    unfold load_model
    simp only [himp, if_true, Bool.false_eq_true, if_false]
    cases env.tfKerasLoad (select_model_path env.convertedExists) <;> rfl

/-- Loader environment where the shim import succeeds and the shim
load returns handle `7`. -/
def loadEnvShimW : LoadEnv ℕ :=
  ⟨true, true, fun _ => Except.ok 7, fun _ => Except.error "std"⟩

/-- Loader environment where the shim import fails and the standard
runtime load returns handle `9`. -/
def loadEnvStdW : LoadEnv ℕ :=
  ⟨false, false, fun _ => Except.error "no tf_keras",
    fun _ => Except.ok 9⟩

/-- Loader environment where the shim import fails and the standard
runtime load also fails. -/
def loadEnvFailW : LoadEnv ℕ :=
  ⟨false, false, fun _ => Except.error "no tf_keras",
    fun _ => Except.error "bad marshal data"⟩

/-- Witness for C3 on the three concrete loader environments. -/
theorem c3_loader_fallback_chain_witness :
    load_model false loadEnvShimW none =
      ⟨Except.ok (some 7), some 7, ⟨1, 1, 0⟩⟩ ∧
    load_model false loadEnvStdW none =
      ⟨Except.ok (some 9), some 9, ⟨1, 0, 1⟩⟩ ∧
    (load_model false loadEnvFailW none).result =
      Except.error "bad marshal data" :=
  ⟨(c3_loader_fallback_chain loadEnvShimW).2.1 7 rfl rfl,
   (c3_loader_fallback_chain loadEnvStdW).2.2.1 9 rfl rfl,
   (c3_loader_fallback_chain loadEnvFailW).2.2.2.1 "bad marshal data" rfl rfl⟩

/-- Claim C4: once a loader call has succeeded, every subsequent call
returns the identical cached handle and performs no second load
attempt — no file-system check, no shim load call, no standard load
call. -/
theorem c4_cached_after_success {M : Type} (env : LoadEnv M) (m : M)
    (h : (load_model false env none).result = Except.ok (some m)) :
    ∀ n, 1 ≤ n →
      modelStateAfter env n = some m ∧
      load_model false env (modelStateAfter env n) =
        ⟨Except.ok (some m), some m, ⟨0, 0, 0⟩⟩ := by
  have h1 : modelStateAfter env 1 = some m := load_model_ok_newModel env m h
  intro n hn
  induction n with
  | zero => exact absurd hn (by norm_num)
  | succ k ih =>
    rcases Nat.eq_zero_or_pos k with hk | hk
    · subst hk
      exact ⟨h1, by rw [h1]; exact load_model_cached env m⟩
    · obtain ⟨hs, -⟩ := ih hk
      have hs' : modelStateAfter env (k + 1) = some m := by
        show (load_model false env (modelStateAfter env k)).newModel = some m
        rw [hs, load_model_cached]
      exact ⟨hs', by rw [hs']; exact load_model_cached env m⟩

/-- Witness for C4: after the concrete first load succeeds with handle
`7`, the second and third calls return the cached handle with a zero
work trace. -/
theorem c4_cached_after_success_witness :
    modelStateAfter loadEnvShimW 2 = some 7 ∧
    load_model false loadEnvShimW (modelStateAfter loadEnvShimW 2) =
      ⟨Except.ok (some 7), some 7, ⟨0, 0, 0⟩⟩ :=
  c4_cached_after_success loadEnvShimW 7 rfl 2 (by norm_num)

/-- Claim C5: each demo-predictor invocation uses the symmetric
Dirichlet concentration `2`; when the uniform draw exceeds the `0.3`
threshold it adds a fixed `0.5` boost to the uniformly chosen class and
renormalises to sum `1`, and otherwise returns the Dirichlet sample
unmodified.  The branch set has Lebesgue probability exactly `7/10`
within the `[0, 1)` range of `random.random()`, and the boosted class
is chosen uniformly among the four. -/
theorem c5_demo_distribution :
    (∀ i, dirichletAlpha i = 2) ∧
    (∀ (d : Fin 4 → ℚ) (r : ℚ) (k : Fin 4), boostThreshold < r →
      demoProbs d r k =
        fun j => (d j + if j = k then 1/2 else 0) / (sum4 d + 1/2)) ∧
    (∀ (d : Fin 4 → ℚ) (r : ℚ) (k : Fin 4), ¬ boostThreshold < r →
      demoProbs d r k = d) ∧
    (∀ (d : Fin 4 → ℚ) (r : ℚ) (k : Fin 4), boostThreshold < r →
      sum4 d = 1 → sum4 (demoProbs d r k) = 1) ∧
    MeasureTheory.volume
      (Set.Ico (0:ℝ) 1 ∩ {x : ℝ | (boostThreshold : ℝ) < x}) =
      ENNReal.ofReal (7/10) ∧
    (∀ k, uniformProb randintRange k = 1/4) := by
  refine ⟨?_, ?_, ?_, ?_, ?_, ?_⟩
  · intro i
    norm_num [dirichletAlpha]
  · intro d r k hr
    unfold demoProbs
    rw [if_pos hr]
    funext j
    rw [sum4_boosted]
  · intro d r k hr
    unfold demoProbs
    rw [if_neg hr]
  · intro d r k _ hd
    exact sum4_demoProbs d r k hd
  · have hb : ((boostThreshold : ℚ) : ℝ) = 3/10 := by
      norm_num [boostThreshold]
    have hset : Set.Ico (0:ℝ) 1 ∩ {x : ℝ | (boostThreshold : ℝ) < x} =
        Set.Ioo (3/10 : ℝ) 1 := by
      ext x
      simp only [Set.mem_inter_iff, Set.mem_Ico, Set.mem_setOf_eq,
        Set.mem_Ioo, hb]
      constructor
      · rintro ⟨⟨h0, h1⟩, h2⟩
        exact ⟨h2, h1⟩
      · rintro ⟨h2, h1⟩
        exact ⟨⟨by linarith, h1⟩, h2⟩
    rw [hset, Real.volume_Ioo]
    norm_num
  · intro k
    unfold uniformProb randintRange
    rw [Finset.filter_eq']
    simp [Finset.card_univ]

/-- Witness for C5: the boosted and unmodified branches and the
renormalised sum at a concrete Dirichlet draw, uniform draw and class
index. -/
theorem c5_demo_distribution_witness :
    demoProbs demoDrawW (1/2) 1 =
      (fun j => (demoDrawW j + if j = 1 then 1/2 else 0) /
        (sum4 demoDrawW + 1/2)) ∧
    demoProbs demoDrawW (1/10) 1 = demoDrawW ∧
    sum4 (demoProbs demoDrawW (1/2) 1) = 1 :=
  ⟨c5_demo_distribution.2.1 demoDrawW (1/2) 1 (by norm_num [boostThreshold]),
   c5_demo_distribution.2.2.1 demoDrawW (1/10) 1
     (by norm_num [boostThreshold]),
   c5_demo_distribution.2.2.2.1 demoDrawW (1/2) 1
     (by norm_num [boostThreshold]) (by norm_num [demoDrawW, sum4])⟩

theorem run_prediction_status {M : Type} (env : PredictEnv M)
    (bytes : List ℕ) :
    (run_prediction env bytes).1 = 200 ∨ (run_prediction env bytes).1 = 500 := by
  unfold run_prediction
  split_ifs
  · exact Or.inl rfl
  · rcases hl : (load_model false env.loadEnv env.modelState).result with
      e | o
    · simp [hl]
    · rcases o with - | m
      · simp [hl]
      · simp only [hl]
        rcases hi : env.openImage bytes with e | img
        · simp [hi]
        · simp only [hi]
          rcases hf : env.infer m
              (preprocess_image env.convert env.resize img) with e | preds
          · simp [hf]
          · simp [hf]

/-- Claim C6: every exception arising during input extraction, base64
decoding, model loading, image decoding or inference is caught at the
`/predict` handler boundary and becomes a 500 response whose error body
carries that exception's message; the handler always returns one of the
three statuses, so no exception escapes. -/
theorem c6_predict_catches_exceptions {M : Type} (env : PredictEnv M)
    (req : PredictReq) :
    ((predict env req).1 = 200 ∨ (predict env req).1 = 400 ∨
      (predict env req).1 = 500) ∧
    (∀ e, req.fileImage = none → req.getJson = Except.error e →
      predict env req = (500, PredictBody.err e)) ∧
    (∀ e d s, req.fileImage = none → req.getJson = Except.ok (some d) →
      d.image = some s →
      env.b64dec (extract_b64_payload s) = Except.error e →
      predict env req = (500, PredictBody.err e)) ∧
    (∀ e bytes, env.demoMode = false →
      (load_model false env.loadEnv env.modelState).result =
        Except.error e →
      run_prediction env bytes = (500, PredictBody.err e)) ∧
    (∀ e bytes m, env.demoMode = false →
      (load_model false env.loadEnv env.modelState).result =
        Except.ok (some m) →
      env.openImage bytes = Except.error e →
      run_prediction env bytes = (500, PredictBody.err e)) ∧
    (∀ e bytes m img, env.demoMode = false →
      (load_model false env.loadEnv env.modelState).result =
        Except.ok (some m) →
      env.openImage bytes = Except.ok img →
      env.infer m (preprocess_image env.convert env.resize img) =
        Except.error e →
      run_prediction env bytes = (500, PredictBody.err e)) ∧
    (∀ f, req.fileImage = some f → f.filename ≠ "" →
      predict env req = run_prediction env f.content) := by
  refine ⟨?_, ?_, ?_, ?_, ?_, ?_, ?_⟩
  · rcases hf : req.fileImage with - | f
    · rcases hg : req.getJson with e | od
      · simp [predict, hf, hg]
      · rcases od with - | d
        · simp [predict, hf, hg]
        · rcases hi : d.image with - | s
          · simp [predict, hf, hg, hi]
          · rcases hb : env.b64dec (extract_b64_payload s) with e | bytes
            · simp [predict, hf, hg, hi, hb]
            · simp only [predict, hf, hg, hi, hb]
              rcases run_prediction_status env bytes with h | h
              · exact Or.inl h
              · exact Or.inr (Or.inr h)
    · by_cases hname : f.filename = ""
      · simp [predict, hf, hname]
      · simp only [predict, hf, if_neg hname]
        rcases run_prediction_status env f.content with h | h
        · exact Or.inl h
        · exact Or.inr (Or.inr h)
  · intro e hf hg
    unfold predict
    simp only [hf, hg]
  · intro e d s hf hg hi hb
    unfold predict
    simp only [hf, hg, hi, hb]
  · intro e bytes hdm hl
    unfold run_prediction
    simp only [hdm, Bool.false_eq_true, if_false, hl]
  · intro e bytes m hdm hl hi
    unfold run_prediction
    simp only [hdm, Bool.false_eq_true, if_false, hl, hi]
  · intro e bytes m img hdm hl hi hinf
    unfold run_prediction
    simp only [hdm, Bool.false_eq_true, if_false, hl, hi, hinf]
  · intro f hf hname
    unfold predict
    simp only [hf]
    rw [if_neg hname]

/-- Concrete handler environment used by witnesses: real mode, shim
loader succeeding with handle `7`, failing image decoding and
inference. -/
def predictEnvW : PredictEnv ℕ :=
  { demoMode := false
    loadEnv := loadEnvShimW
    modelState := none
    b64dec := fun _ => Except.error "Invalid base64-encoded string"
    openImage := fun _ => Except.error "cannot identify image file"
    convert := convertW
    resize := resizeW
    infer := fun _ _ => Except.error "inference failed"
    demoDirichlet := demoDrawW
    demoRand := 1/2
    demoIdx := 0 }

/-- Concrete request whose JSON parsing raises. -/
def reqJsonErrW : PredictReq := ⟨none, Except.error "Unsupported Media Type"⟩

/-- Witness for C6: a raised JSON-parsing exception and a raised
image-decoding exception each surface as a 500 error body. -/
theorem c6_predict_catches_exceptions_witness :
    predict predictEnvW reqJsonErrW =
      (500, PredictBody.err "Unsupported Media Type") ∧
    run_prediction predictEnvW [0, 1] =
      (500, PredictBody.err "cannot identify image file") :=
  ⟨(c6_predict_catches_exceptions predictEnvW reqJsonErrW).2.1
      "Unsupported Media Type" rfl rfl,
   (c6_predict_catches_exceptions predictEnvW reqJsonErrW).2.2.2.2.1
      "cannot identify image file" [0, 1] 7 rfl rfl rfl⟩

/-- Concrete request carrying an upload field with an empty filename. -/
def reqEmptyFilenameW : PredictReq := ⟨some ⟨"", [1, 2, 3]⟩, Except.ok none⟩

/-- Counterexample to C7 as stated: an upload with an empty filename is
answered 400, but with error body `No image selected`, not
`No image provided`. -/
theorem c7_counterexample :
    (predict predictEnvW reqEmptyFilenameW).1 = 400 ∧
    (predict predictEnvW reqEmptyFilenameW).2 =
      PredictBody.err "No image selected" ∧
    (predict predictEnvW reqEmptyFilenameW).2 ≠
      PredictBody.err "No image provided" := by
  refine ⟨rfl, rfl, fun h => ?_⟩
  rw [show (predict predictEnvW reqEmptyFilenameW).2 =
      PredictBody.err "No image selected" from rfl] at h
  injection h with h'
  exact absurd h' (by decide)

/-- Claim C7 as amended: a request with neither an upload field nor a
JSON `image` field fails 400 with body `No image provided`, while an
upload field with an empty filename fails 400 with body
`No image selected`. -/
theorem c7_amended_no_image {M : Type} (env : PredictEnv M)
    (req : PredictReq) :
    (req.fileImage = none → req.getJson = Except.ok none →
      predict env req = (400, PredictBody.err "No image provided")) ∧
    (∀ d, req.fileImage = none → req.getJson = Except.ok (some d) →
      d.image = none →
      predict env req = (400, PredictBody.err "No image provided")) ∧
    (∀ f, req.fileImage = some f → f.filename = "" →
      predict env req = (400, PredictBody.err "No image selected")) := by
  refine ⟨?_, ?_, ?_⟩
  · intro hf hg
    unfold predict
    simp only [hf, hg]
  · intro d hf hg hi
    unfold predict
    simp only [hf, hg, hi]
  · intro f hf hname
    unfold predict
    simp only [hf]
    rw [if_pos hname]

/-- Concrete request with a JSON body lacking an `image` field. -/
def reqNoImageFieldW : PredictReq := ⟨none, Except.ok (some ⟨none⟩)⟩

/-- Witness for the amended C7 at concrete requests. -/
theorem c7_amended_no_image_witness :
    predict predictEnvW reqNoImageFieldW =
      (400, PredictBody.err "No image provided") ∧
    predict predictEnvW reqEmptyFilenameW =
      (400, PredictBody.err "No image selected") :=
  ⟨(c7_amended_no_image predictEnvW reqNoImageFieldW).2.1 ⟨none⟩ rfl rfl rfl,
   (c7_amended_no_image predictEnvW reqEmptyFilenameW).2.2 ⟨"", [1, 2, 3]⟩
     rfl rfl⟩

/-- Claim C9: for every byte sequence, prepending the data-URL marker
to its base64 encoding does not change the extracted payload — the
stripped string equals the bare encoding, so any decoder sees the same
bytes. -/
theorem c9_data_url_strip (bs : List ℕ) (t : List Char) (ht : ',' ∉ t) :
    extract_b64_payload (dataUrlMarker t ++ b64encode bs) = b64encode bs ∧
    extract_b64_payload (b64encode bs) = b64encode bs ∧
    (∀ dec : List Char → Except String (List ℕ),
      dec (extract_b64_payload (dataUrlMarker t ++ b64encode bs)) =
        dec (extract_b64_payload (b64encode bs))) := by
  have h1 := extract_b64_payload_marker t (b64encode bs) ht
    (b64encode_no_comma bs)
  have h2 := extract_b64_payload_no_comma (b64encode bs)
    (b64encode_no_comma bs)
  exact ⟨h1, h2, fun dec => by rw [h1, h2]⟩

/-- Witness for C9 at the byte sequence `[77, 97, 110]` and media type
`image/png`. -/
theorem c9_data_url_strip_witness :
    extract_b64_payload (dataUrlMarker "image/png".toList ++
      b64encode [77, 97, 110]) = b64encode [77, 97, 110] ∧
    extract_b64_payload (b64encode [77, 97, 110]) =
      b64encode [77, 97, 110] ∧
    (∀ dec : List Char → Except String (List ℕ),
      dec (extract_b64_payload (dataUrlMarker "image/png".toList ++
        b64encode [77, 97, 110])) =
        dec (extract_b64_payload (b64encode [77, 97, 110]))) :=
  c9_data_url_strip [77, 97, 110] "image/png".toList (by decide)

theorem chat_getJson_error (env : ChatEnv) (req : ChatReq) (e : String)
    (hg : req.getJson = Except.error e) :
    chat env req = ⟨200, ChatBody.degraded e genericFailureResponse, false⟩ := by
  unfold chat
  rw [hg]

theorem chat_getJson_none (env : ChatEnv) (req : ChatReq)
    (hg : req.getJson = Except.ok none) :
    chat env req =
      ⟨200, ChatBody.degraded noneGetAttributeMsg genericFailureResponse,
        false⟩ := by
  unfold chat
  rw [hg]

theorem chat_empty_message (env : ChatEnv) (req : ChatReq) (d : ChatJson)
    (hg : req.getJson = Except.ok (some d))
    (hm : py_strip (d.message.getD "") = "") :
    chat env req = ⟨400, ChatBody.err "No message provided", false⟩ := by
  unfold chat
  simp only [hg]
  rw [if_pos hm]

theorem chat_not_configured (env : ChatEnv) (req : ChatReq) (d : ChatJson)
    (hg : req.getJson = Except.ok (some d))
    (hm : py_strip (d.message.getD "") ≠ "") (hk : env.apiKey = "") :
    chat env req =
      ⟨200, ChatBody.degraded notConfiguredError notConfiguredResponse,
        false⟩ := by
  unfold chat
  simp only [hg]
  rw [if_neg hm, if_pos hk]

theorem chat_timeout (env : ChatEnv) (req : ChatReq) (d : ChatJson)
    (hg : req.getJson = Except.ok (some d))
    (hm : py_strip (d.message.getD "") ≠ "") (hk : env.apiKey ≠ "")
    (hp : env.postResult = Except.error ChatExc.timeout) :
    chat env req =
      ⟨200, ChatBody.degraded "Request timeout"
        "The request took too long. Please try again.", true⟩ := by
  unfold chat
  simp only [hg]
  rw [if_neg hm, if_neg hk]
  simp only [hp]

theorem chat_other_exception (env : ChatEnv) (req : ChatReq) (d : ChatJson)
    (e : String) (hg : req.getJson = Except.ok (some d))
    (hm : py_strip (d.message.getD "") ≠ "") (hk : env.apiKey ≠ "")
    (hp : env.postResult = Except.error (ChatExc.other e)) :
    chat env req =
      ⟨200, ChatBody.degraded e genericFailureResponse, true⟩ := by
  unfold chat
  simp only [hg]
  rw [if_neg hm, if_neg hk]
  simp only [hp]

theorem chat_upstream_status (env : ChatEnv) (req : ChatReq) (d : ChatJson)
    (resp : HttpResp) (hg : req.getJson = Except.ok (some d))
    (hm : py_strip (d.message.getD "") ≠ "") (hk : env.apiKey ≠ "")
    (hp : env.postResult = Except.ok resp) :
    (chat env req).status = 200 ∧ (chat env req).calledUpstream = true ∧
    ∃ s, chatBodyResponse (chat env req).body = some s := by
  unfold chat
  simp only [hg]
  rw [if_neg hm, if_neg hk]
  simp only [hp]
  by_cases hs : resp.status ≠ 200
  · rw [if_pos hs]
    by_cases ht : resp.text = ""
    · rw [if_pos ht]
      exact ⟨by simp, by simp, _, rfl⟩
    · rw [if_neg ht]
      rcases hj : resp.json with e | j
      · simp only [hj]
        exact ⟨by simp, by simp, _, rfl⟩
      · simp only [hj]
        exact ⟨by simp, by simp, _, rfl⟩
  · rw [if_neg hs]
    rcases hj : resp.json with e | j
    · simp only [hj]
      exact ⟨by simp, by simp, _, rfl⟩
    · simp only [hj]
      rcases hc : j.content with e | c
      · simp only [hc]
        exact ⟨by simp, by simp, _, rfl⟩
      · simp only [hc]
        exact ⟨by simp, by simp, _, rfl⟩

theorem chat_cases (env : ChatEnv) (req : ChatReq) :
    (∃ d, req.getJson = Except.ok (some d) ∧ py_strip (d.message.getD "") = "" ∧
      chat env req = ⟨400, ChatBody.err "No message provided", false⟩) ∨
    ((chat env req).status = 200 ∧
      ¬ (∃ d, req.getJson = Except.ok (some d) ∧
        py_strip (d.message.getD "") = "") ∧
      ∃ s, chatBodyResponse (chat env req).body = some s) := by
  rcases hg : req.getJson with e | od
  · right
    rw [chat_getJson_error env req e hg]
    exact ⟨rfl, by simp, _, rfl⟩
  · rcases od with - | d
    · right
      rw [chat_getJson_none env req hg]
      exact ⟨rfl, by simp, _, rfl⟩
    · by_cases hm : py_strip (d.message.getD "") = ""
      · exact Or.inl ⟨d, rfl, hm, chat_empty_message env req d hg hm⟩
      · right
        have hnotempty : ¬ (∃ d',
            (Except.ok (some d) : Except String (Option ChatJson)) =
              Except.ok (some d') ∧
            py_strip (d'.message.getD "") = "") := by
          rintro ⟨d', hg', hm'⟩
          injection hg' with hd'
          injection hd' with hd'
          subst hd'
          exact hm hm'
        by_cases hk : env.apiKey = ""
        · rw [chat_not_configured env req d hg hm hk]
          exact ⟨rfl, hnotempty, _, rfl⟩
        · rcases hp : env.postResult with exc | resp
          · rcases exc with - | e
            · rw [chat_timeout env req d hg hm hk hp]
              exact ⟨rfl, hnotempty, _, rfl⟩
            · rw [chat_other_exception env req d e hg hm hk hp]
              exact ⟨rfl, hnotempty, _, rfl⟩
          · obtain ⟨h1, -, h3⟩ :=
              chat_upstream_status env req d resp hg hm hk hp
            exact ⟨h1, hnotempty, h3⟩

/-- Claim C8: `/chat` answers 400 exactly when the parsed JSON carries
a message whose trimmed text is empty, and 200 in every other case —
missing credential (canned `not configured` answer, no outbound call),
upstream non-200 status, timeout of the outbound call, and any other
exception — each 200 outcome carrying an in-band `response` string. -/
theorem c8_chat_status_policy (env : ChatEnv) (req : ChatReq) :
    ((chat env req).status = 400 ↔
      ∃ d, req.getJson = Except.ok (some d) ∧
        py_strip (d.message.getD "") = "") ∧
    ((chat env req).status = 400 ∨ (chat env req).status = 200) ∧
    ((chat env req).status = 200 →
      ∃ s, chatBodyResponse (chat env req).body = some s) ∧
    (∀ d, req.getJson = Except.ok (some d) →
      py_strip (d.message.getD "") ≠ "" → env.apiKey = "" →
      chat env req =
        ⟨200, ChatBody.degraded notConfiguredError notConfiguredResponse,
          false⟩ ∧
      hasSub "not configured".toList notConfiguredResponse.toList = true) ∧
    (∀ d, req.getJson = Except.ok (some d) →
      py_strip (d.message.getD "") ≠ "" → env.apiKey ≠ "" →
      env.postResult = Except.error ChatExc.timeout →
      (chat env req).status = 200) ∧
    (∀ d e, req.getJson = Except.ok (some d) →
      py_strip (d.message.getD "") ≠ "" → env.apiKey ≠ "" →
      env.postResult = Except.error (ChatExc.other e) →
      (chat env req).status = 200) ∧
    (∀ d resp, req.getJson = Except.ok (some d) →
      py_strip (d.message.getD "") ≠ "" → env.apiKey ≠ "" →
      env.postResult = Except.ok resp →
      (chat env req).status = 200) := by
  refine ⟨?_, ?_, ?_, ?_, ?_, ?_, ?_⟩
  · constructor
    · intro h400
      rcases chat_cases env req with ⟨d, hg, hm, -⟩ | ⟨h200, -, -⟩
      · exact ⟨d, hg, hm⟩
      · rw [h200] at h400
        exact absurd h400 (by norm_num)
    · rintro ⟨d, hg, hm⟩
      rw [chat_empty_message env req d hg hm]
  · rcases chat_cases env req with ⟨-, -, -, hchat⟩ | ⟨h200, -, -⟩
    · rw [hchat]
      exact Or.inl rfl
    · exact Or.inr h200
  · intro h200
    rcases chat_cases env req with ⟨-, -, -, hchat⟩ | ⟨-, -, hresp⟩
    · rw [hchat] at h200
      exact absurd h200 (by norm_num)
    · exact hresp
  · intro d hg hm hk
    exact ⟨chat_not_configured env req d hg hm hk, rfl⟩
  · intro d hg hm hk hp
    rw [chat_timeout env req d hg hm hk hp]
  · intro d e hg hm hk hp
    rw [chat_other_exception env req d e hg hm hk hp]
  · intro d resp hg hm hk hp
    exact (chat_upstream_status env req d resp hg hm hk hp).1

/-- Concrete chat environment with no configured API key. -/
def chatEnvNoKeyW : ChatEnv := ⟨"", Except.error ChatExc.timeout⟩

/-- Concrete chat environment whose outbound call times out. -/
def chatEnvTimeoutW : ChatEnv := ⟨"sk-test", Except.error ChatExc.timeout⟩

/-- Concrete chat request carrying the message `hello`. -/
def chatReqHelloW : ChatReq := ⟨Except.ok (some ⟨some "hello"⟩)⟩

/-- Concrete chat request carrying a whitespace-only message. -/
def chatReqBlankW : ChatReq := ⟨Except.ok (some ⟨some "  "⟩)⟩

/-- Witness for C8: the blank message yields 400, the missing
credential yields the canned 200 `not configured` response without an
outbound call, and the timeout yields 200. -/
theorem c8_chat_status_policy_witness :
    ((chat chatEnvNoKeyW chatReqBlankW).status = 400 ↔
      ∃ d, chatReqBlankW.getJson = Except.ok (some d) ∧
        py_strip (d.message.getD "") = "") ∧
    (chat chatEnvNoKeyW chatReqHelloW =
      ⟨200, ChatBody.degraded notConfiguredError notConfiguredResponse,
        false⟩ ∧
      hasSub "not configured".toList notConfiguredResponse.toList = true) ∧
    (chat chatEnvTimeoutW chatReqHelloW).status = 200 :=
  ⟨(c8_chat_status_policy chatEnvNoKeyW chatReqBlankW).1,
   (c8_chat_status_policy chatEnvNoKeyW chatReqHelloW).2.2.2.1 ⟨some "hello"⟩
     rfl (by decide) rfl,
   (c8_chat_status_policy chatEnvTimeoutW chatReqHelloW).2.2.2.2.1
     ⟨some "hello"⟩ rfl (by decide) (by decide) rfl⟩

/-- Claim C10: with demo mode enabled the loader returns `None` without
any artifact load attempt or file-system check and leaves the cached
global model unchanged, so `/health` keeps reporting
`model_loaded = false` while demo predictions still answer 200. -/
theorem c10_demo_loader_frame {M : Type} (env : LoadEnv M) :
    (∀ st : Option M, load_model true env st =
      ⟨Except.ok none, st, ⟨0, 0, 0⟩⟩) ∧
    (∀ key : String,
      (health true (load_model true env none).newModel key).model_loaded =
        false) ∧
    (∀ (penv : PredictEnv M) (bytes : List ℕ), penv.demoMode = true →
      run_prediction penv bytes = (200, PredictBody.pred true
        (demo_predict penv.demoDirichlet penv.demoRand penv.demoIdx))) := by
  refine ⟨fun st => rfl, fun key => rfl, ?_⟩
  intro penv bytes hdm
  unfold run_prediction
  simp only [hdm, if_true]

/-- Demo-mode handler environment used by witnesses. -/
def demoEnvW : PredictEnv ℕ := { predictEnvW with demoMode := true }

/-- Witness for C10: demo-mode loading with a populated and an empty
cache, the health report, and a concrete demo prediction. -/
theorem c10_demo_loader_frame_witness :
    load_model true loadEnvShimW (some 7) =
      ⟨Except.ok none, some 7, ⟨0, 0, 0⟩⟩ ∧
    (health true (load_model true loadEnvShimW none).newModel
      "").model_loaded = false ∧
    run_prediction demoEnvW [0, 1] = (200, PredictBody.pred true
      (demo_predict demoEnvW.demoDirichlet demoEnvW.demoRand
        demoEnvW.demoIdx)) :=
  ⟨(c10_demo_loader_frame loadEnvShimW).1 (some 7),
   (c10_demo_loader_frame loadEnvShimW).2.1 "",
   (c10_demo_loader_frame loadEnvShimW).2.2 demoEnvW [0, 1] rfl⟩





